import Mathlib

/-!
Verification development for the qudi NI 6229 hardware module
(src/hardware/national_instruments_m_series.py).

The module's derived-count computations (scan_line, count_odmr, get_counter),
its task-handle bookkeeping (set_up / close operations), the device-name
parsing of reset_hardware and the voltage clamping of
NI6229CardAnalogControl.set_voltage are embedded as executable Lean
definitions; machine integers (np.uint32) are modelled as Nat with explicit
reduction mod 2^32, and float scalings are modelled over ℚ.
-/

namespace NI6229

/-- np.uint32 subtraction `entry - previous` (wraps modulo 2^32); both inputs
are assumed to be uint32 values, i.e. below 2^32. -/
def sub32 (a b : ℕ) : ℕ := (a + 2 ^ 32 - b) % 2 ^ 32

/-- The difference loop shared by scan_line and count_odmr:
`previous = first; for entry in entries: out.append(entry - previous); previous = entry`
with uint32 arithmetic. -/
def diffLoop (previous : ℕ) : List ℕ → List ℕ
  | [] => []
  | e :: rest => sub32 e previous :: diffLoop e rest

/-- Derived data of scan_line: `c` is the cumulative count buffer
`_scan_data[0]` of length `_line_length + 2` read back from the scanner
counter task, `f` is `_scanner_clock_frequency`.  The loop runs over the
slice `c[1:-1]` with `previous = c[0]`, and the result
`(_real_data * f / 2).transpose()` is a column of singleton rows. -/
def scan_line_data (c : List ℕ) (f : ℚ) : List (List ℚ) :=
  match c with
  | [] => []
  | p :: rest =>
    (diffLoop p rest.dropLast).map (fun d : ℕ => [(d : ℚ) * f / 2])

/-- Derived data of count_odmr: `c` is the cumulative count buffer
`_odmr_data` of length `_odmr_length + 1`, `f` is `_odmr_clock_frequency`.
The loop runs over the slice `c[1:]` with `previous = c[0]`, and the result
is `_real_data * f` (no division by 2, no transpose). -/
def count_odmr_data (c : List ℕ) (f : ℚ) : List ℚ :=
  match c with
  | [] => []
  | p :: rest => (diffLoop p rest).map (fun d : ℕ => (d : ℚ) * f)

/-- Sample-count defaulting of get_counter: `samples` if given, else the
configured `_samples_number`. -/
def effectiveSamples (samples : Option ℕ) (samplesNumber : ℕ) : ℕ :=
  match samples with
  | none => samplesNumber
  | some n => n

/-- Derived data of get_counter: the raw semi-period tick values read from
the counter task, normalised to counts per second by `_clock_frequency`;
count_data has shape (1, samples), so the result is one row. -/
def get_counter_data (raw : List ℕ) (f : ℚ) : List (List ℚ) :=
  [raw.map (fun x : ℕ => (x : ℚ) * f)]

/-- Task-handle bookkeeping state of NI6229Card.  Each field records whether
the corresponding `_*_daq_task` attribute is non-None (`true`) or None
(`false`).  The analog-output task is always running and is not part of any
claim, so it is not tracked. -/
structure NIState where
  clock : Bool
  counter : Bool
  scannerClock : Bool
  scannerCounter : Bool
  odmrClock : Bool
  odmrCounter : Bool
deriving DecidableEq, Repr, Fintype

/-- Outcome of one lifecycle operation: the Python return value, the
post-state of the task handles, and whether any driver (DAQmx) call was
issued during the operation. -/
structure OpResult where
  ret : ℤ
  st : NIState
  calledDriver : Bool
deriving DecidableEq, Repr

/-- set_up_clock.  Guards: refuse when `_clock_daq_task` or
`_scanner_clock_daq_task` is non-None (the ODMR clock is NOT checked).
The handle is assigned `daq.TaskHandle()` before the try block, so it is
non-None afterwards even when the driver calls raise. -/
def set_up_clock (s : NIState) (driverOk : Bool) : OpResult :=
  if s.clock then ⟨-1, s, false⟩
  else if s.scannerClock then ⟨-1, s, false⟩
  else
    let s1 := { s with clock := true }
    if driverOk then ⟨0, s1, true⟩ else ⟨-1, s1, true⟩

/-- set_up_scanner_clock.  Guards: refuse when `_scanner_clock_daq_task` or
`_clock_daq_task` is non-None (the ODMR clock is NOT checked).  Handle is
assigned before the try block. -/
def set_up_scanner_clock (s : NIState) (driverOk : Bool) : OpResult :=
  if s.scannerClock then ⟨-1, s, false⟩
  else if s.clock then ⟨-1, s, false⟩
  else
    let s1 := { s with scannerClock := true }
    if driverOk then ⟨0, s1, true⟩ else ⟨-1, s1, true⟩

/-- set_up_odmr_clock.  Guards: refuse when `_odmr_clock_daq_task` is
non-None, or when `_clock_daq_task` or `_scanner_clock_daq_task` is
non-None.  Handle is assigned before the try block. -/
def set_up_odmr_clock (s : NIState) (driverOk : Bool) : OpResult :=
  if s.odmrClock then ⟨-1, s, false⟩
  else if s.clock || s.scannerClock then ⟨-1, s, false⟩
  else
    let s1 := { s with odmrClock := true }
    if driverOk then ⟨0, s1, true⟩ else ⟨-1, s1, true⟩

/-- set_up_counter.  `clockChGiven` records whether a `clock_channel`
argument was supplied; `setupOk` whether the configuration try block
succeeds; `startOk` whether `DAQmxStartTask` succeeds.  The handle is
assigned as the first statement of the try block; on a start failure,
`close_counter()` is invoked, which always resets the handle to None. -/
def set_up_counter (s : NIState) (clockChGiven setupOk startOk : Bool) :
    OpResult :=
  if !s.clock && !clockChGiven then ⟨-1, s, false⟩
  else if s.counter || s.scannerCounter then ⟨-1, s, false⟩
  else
    let s1 := { s with counter := true }
    if !setupOk then ⟨-1, s1, true⟩
    else if !startOk then ⟨-1, { s1 with counter := false }, true⟩
    else ⟨0, s1, true⟩

/-- set_up_scanner.  Guards: refuse when no scanner clock is running and no
`clock_channel` was given; refuse when `_scanner_counter_daq_task` or
`_counter_daq_task` is non-None.  The handle is assigned as the first
statement of the try block (no start call here).  The optional
`scanner_ao_channels` argument only restarts the analog-output task, which
is not tracked. -/
def set_up_scanner (s : NIState) (clockChGiven setupOk : Bool) : OpResult :=
  if !s.scannerClock && !clockChGiven then ⟨-1, s, false⟩
  else if s.scannerCounter || s.counter then ⟨-1, s, false⟩
  else
    let s1 := { s with scannerCounter := true }
    if setupOk then ⟨0, s1, true⟩ else ⟨-1, s1, true⟩

/-- set_up_odmr.  Guards: refuse when no ODMR clock is running and no
`clock_channel` was given; refuse when any of `_odmr_counter_daq_task`,
`_scanner_counter_daq_task`, `_counter_daq_task` is non-None.  The handle
is assigned as the first statement of the try block. -/
def set_up_odmr (s : NIState) (clockChGiven setupOk : Bool) : OpResult :=
  if !s.odmrClock && !clockChGiven then ⟨-1, s, false⟩
  else if s.odmrCounter || s.scannerCounter || s.counter then ⟨-1, s, false⟩
  else
    let s1 := { s with odmrCounter := true }
    if setupOk then ⟨0, s1, true⟩ else ⟨-1, s1, true⟩

/-- close_counter: stop/clear may raise (yielding -1), but
`_counter_daq_task = None` is executed after the except block, so the
handle is always None afterwards. -/
def close_counter (s : NIState) (driverOk : Bool) : OpResult :=
  ⟨if driverOk then 0 else -1, { s with counter := false }, true⟩

/-- close_clock: the assignment `_clock_daq_task = None` sits INSIDE the
try block, after stop and clear; when a driver call raises, the function
returns -1 with the handle left unchanged. -/
def close_clock (s : NIState) (driverOk : Bool) : OpResult :=
  if driverOk then ⟨0, { s with clock := false }, true⟩ else ⟨-1, s, true⟩

/-- close_scanner: first `_stop_analog_output` (result `aoOk`), then
stop/clear of the scanner counter with the None assignment inside the try;
the return value is the bitwise-or combination `res | error`, i.e. -1
unless both parts succeeded. -/
def close_scanner (s : NIState) (aoOk driverOk : Bool) : OpResult :=
  ⟨if aoOk && driverOk then 0 else -1,
   if driverOk then { s with scannerCounter := false } else s, true⟩

/-- close_scanner_clock: None assignment inside the try block, as in
close_clock. -/
def close_scanner_clock (s : NIState) (driverOk : Bool) : OpResult :=
  if driverOk then ⟨0, { s with scannerClock := false }, true⟩
  else ⟨-1, s, true⟩

/-- close_odmr: the assignment `_odmr_counter_daq_task = None` sits INSIDE
the try block, after stop and clear; when a driver call raises, the except
branch sets error = -1 and the handle is left unchanged. -/
def close_odmr (s : NIState) (driverOk : Bool) : OpResult :=
  if driverOk then ⟨0, { s with odmrCounter := false }, true⟩
  else ⟨-1, s, true⟩

/-- close_odmr_clock: None assignment inside the try block, as in
close_clock. -/
def close_odmr_clock (s : NIState) (driverOk : Bool) : OpResult :=
  if driverOk then ⟨0, { s with odmrClock := false }, true⟩
  else ⟨-1, s, true⟩

/-- Initial state set by on_activate: every task handle is None. -/
def initState : NIState := ⟨false, false, false, false, false, false⟩

/-- One invocation of a module operation that can modify a task handle,
with its arguments and its driver outcomes.  The read operations
(get_counter, scan_line, count_odmr, set_odmr_length, ...) do not modify
any of the six tracked handles and therefore need no action. -/
inductive Act where
  | clockUp (d : Bool)
  | scannerClockUp (d : Bool)
  | odmrClockUp (d : Bool)
  | counterUp (c a b : Bool)
  | scannerUp (c a : Bool)
  | odmrUp (c a : Bool)
  | counterClose (d : Bool)
  | clockClose (d : Bool)
  | scannerClose (a d : Bool)
  | scannerClockClose (d : Bool)
  | odmrClose (d : Bool)
  | odmrClockClose (d : Bool)
deriving DecidableEq, Repr, Fintype

/-- The state after running one operation. -/
def applyOp (s : NIState) : Act → NIState
  | .clockUp d => (set_up_clock s d).st
  | .scannerClockUp d => (set_up_scanner_clock s d).st
  | .odmrClockUp d => (set_up_odmr_clock s d).st
  | .counterUp c a b => (set_up_counter s c a b).st
  | .scannerUp c a => (set_up_scanner s c a).st
  | .odmrUp c a => (set_up_odmr s c a).st
  | .counterClose d => (close_counter s d).st
  | .clockClose d => (close_clock s d).st
  | .scannerClose a d => (close_scanner s a d).st
  | .scannerClockClose d => (close_scanner_clock s d).st
  | .odmrClose d => (close_odmr s d).st
  | .odmrClockClose d => (close_odmr_clock s d).st

/-- One step of the task-handle state: some operation was invoked. -/
def Step (s s' : NIState) : Prop := ∃ a : Act, s' = applyOp s a

/-- A task-handle state is reachable when some sequence of module
operations leads to it from the on_activate state. -/
def Reachable (s : NIState) : Prop :=
  Relation.ReflTransGen Step initState s

/-- Character class of the first device-name character in the
reset_hardware regex: the class `[0-9A-Za-z\- ]`. -/
def devFirstChar (ch : Char) : Bool := ch.isAlphanum || ch = '-' || ch = ' '

/-- Character class of the remaining device-name characters in the
reset_hardware regex: the class `[0-9A-Za-z\-_ ]`. -/
def devRestChar (ch : Char) : Bool :=
  ch.isAlphanum || ch = '-' || ch = '_' || ch = ' '

/-- Character class of the `chan` group in the reset_hardware regex:
`[0-9A-Za-z]`. -/
def devChanChar (ch : Char) : Bool := ch.isAlphanum

/-- The `dev` group of
`re.match('^/(?P<dev>[0-9A-Za-z\- ]+[0-9A-Za-z\-_ ]*)/(?P<chan>[0-9A-Za-z]+)', channel)`.
Neither character class contains `/`, and the first class is a subset of
the second, so a match exists precisely when: the string starts with `/`,
the following maximal run of second-class characters is nonempty and
begins with a first-class character, the run is followed by `/`, and at
least one alphanumeric character follows that. -/
def parseDev (s : String) : Option String :=
  match s.data with
  | '/' :: rest =>
    match rest.dropWhile devRestChar with
    | '/' :: ch :: _ =>
      match rest.takeWhile devRestChar with
      | [] => none
      | d :: ds => if devFirstChar d && devChanChar ch
                   then some (String.mk (d :: ds)) else none
    | _ => none
  | _ => none

/-- reset_hardware: parse a device name out of every non-None configured
channel (parse failures are only logged), reset each distinct device once,
return 0 when all resets succeed and -1 when any raises.  `resetFails`
models which driver reset calls raise.  The result carries the return
value and the list of device names passed to DAQmxResetDevice. -/
def reset_hardware (chans : List (Option String)) (resetFails : String → Bool) :
    ℤ × List String :=
  let devicelist := (chans.filterMap id).filterMap parseDev
  let calls := devicelist.dedup
  (if calls.any resetFails then -1 else 0, calls)

/-- The sequential clamping of NI6229CardAnalogControl.set_voltage: first
`if voltage < lo: voltage = lo`, then `if voltage > hi: voltage = hi`. -/
def clampSeq (lo hi v : ℚ) : ℚ :=
  let v1 := if v < lo then lo else v
  if v1 > hi then hi else v1

/-- The loop of set_voltage over the entries of `volt_dict`: for an entry
addressing the configured channel, clamp the value, write it to the device
(collected in the second component) and store it as `_current_voltage`.
For any other entry the else branch calls `self.log.eror(...)` — a typo
for `log.error` — which raises AttributeError; the uncaught exception
aborts set_voltage, modelled as `none` (device writes issued before the
raise are not tracked on this path, since the call then returns nothing).
On success, returns the final `_current_voltage` and the written voltages
in order. -/
def svLoop (channelAo : String) (lo hi : ℚ) :
    ℚ → List (String × ℚ) → Option (ℚ × List ℚ)
  | cur, [] => some (cur, [])
  | _, (name, v) :: rest =>
    if name = channelAo then
      let vc := clampSeq lo hi v
      match svLoop channelAo lo hi vc rest with
      | none => none
      | some r => some (r.1, vc :: r.2)
    else none

/-- NI6229CardAnalogControl.set_voltage: processes the dict, then returns
the unmodified input dict; when the loop raises (any entry not addressing
the configured channel), the exception propagates and nothing is returned.
Result on success: (returned dict, final current voltage, voltages written
to the device). -/
def set_voltage (channelAo : String) (lo hi cur : ℚ)
    (volt_dict : List (String × ℚ)) :
    Option (List (String × ℚ) × ℚ × List ℚ) :=
  match svLoop channelAo lo hi cur volt_dict with
  | none => none
  | some r => some (volt_dict, r.1, r.2)

theorem sub32_sub (a b : ℕ) (hba : b ≤ a) (ha : a < 2 ^ 32) :
    sub32 a b = a - b := by
  unfold sub32
  omega

theorem diffLoop_length : ∀ (rest : List ℕ) (p : ℕ),
    (diffLoop p rest).length = rest.length := by
  intro rest
  induction rest with
  | nil => intro p; rfl
  | cons e t ih => intro p; simp [diffLoop, ih e]

theorem diffLoop_getD : ∀ (rest : List ℕ) (p : ℕ) (i : ℕ),
    i < rest.length → List.Chain' (· ≤ ·) (p :: rest) →
    (∀ x ∈ p :: rest, x < 2 ^ 32) →
    (diffLoop p rest).getD i 0 =
      (p :: rest).getD (i + 1) 0 - (p :: rest).getD i 0 := by
  intro rest
  induction rest with
  | nil => intro p i hi _ _; simp at hi
  | cons e t ih =>
    intro p i hi hchain hb
    cases i with
    | zero =>
      have hpe : p ≤ e := (List.chain'_cons.mp hchain).1
      have hea : e < 2 ^ 32 := hb e (by simp)
      simp [diffLoop, sub32_sub e p hpe hea]
    | succ j =>
      have ht : j < t.length := by simpa using hi
      have hc : List.Chain' (· ≤ ·) (e :: t) := (List.chain'_cons.mp hchain).2
      have hb2 : ∀ x ∈ e :: t, x < 2 ^ 32 :=
        fun x hx => hb x (List.mem_cons_of_mem p hx)
      simpa [diffLoop] using ih e j ht hc hb2

theorem getD_cons_dropLast (p : ℕ) (rest : List ℕ) (j : ℕ)
    (hj : j < rest.length) :
    (p :: rest.dropLast).getD j 0 = (p :: rest).getD j 0 := by
  cases j with
  | zero => rfl
  | succ k =>
    simp only [List.getD_cons_succ]
    have hk : k < rest.dropLast.length := by
      simp only [List.length_dropLast]; omega
    rw [List.getD_eq_getElem _ _ hk,
        List.getD_eq_getElem _ _ (show k < rest.length by omega),
        List.getElem_dropLast]

/-- Claim C1: for a successful scan_line call of an m-point line path, the
returned array has shape m x 1 and its entry for pixel i equals
(c[i+1] - c[i]) * f / 2, where c is the buffer of m+2 cumulative edge
counts read from the scanner counter task and f is the scanner clock
frequency.  The cumulative counts are monotone uint32 readings. -/
theorem scan_line_returns_consecutive_diff_rates
    (c : List ℕ) (f : ℚ) (m : ℕ)
    (hlen : c.length = m + 2)
    (hmono : List.Chain' (· ≤ ·) c)
    (hbound : ∀ x ∈ c, x < 2 ^ 32) :
    (scan_line_data c f).length = m ∧
    ∀ i, i < m → (scan_line_data c f).getD i [] =
      [((c.getD (i + 1) 0 - c.getD i 0 : ℕ) : ℚ) * f / 2] := by
  cases c with
  | nil => simp at hlen
  | cons p rest =>
    have hrl : rest.length = m + 1 := by simpa using hlen
    have hA : rest.dropLast.length = m := by simp [hrl]
    have hdl : scan_line_data (p :: rest) f =
        (diffLoop p rest.dropLast).map (fun d : ℕ => [(d : ℚ) * f / 2]) := rfl
    have hdll : (diffLoop p rest.dropLast).length = m := by
      rw [diffLoop_length, hA]
    refine ⟨by rw [hdl]; simp [hdll], ?_⟩
    intro i hi
    have hpre : (p :: rest.dropLast) <+: (p :: rest) :=
      List.cons_prefix_cons.mpr ⟨rfl, rest.dropLast_prefix⟩
    have hchainA : List.Chain' (· ≤ ·) (p :: rest.dropLast) :=
      hmono.prefix hpre
    have hbA : ∀ x ∈ p :: rest.dropLast, x < 2 ^ 32 :=
      fun x hx => hbound x (hpre.subset hx)
    have hiA : i < rest.dropLast.length := by rw [hA]; exact hi
    have h1 : i < ((diffLoop p rest.dropLast).map
        (fun d : ℕ => [(d : ℚ) * f / 2])).length := by
      simp [hdll]; exact hi
    have h2 : i < (diffLoop p rest.dropLast).length := by rw [hdll]; exact hi
    rw [hdl, List.getD_eq_getElem _ _ h1, List.getElem_map,
        ← List.getD_eq_getElem _ 0 h2,
        diffLoop_getD _ _ _ hiA hchainA hbA,
        getD_cons_dropLast p rest (i + 1) (by omega),
        getD_cons_dropLast p rest i (by omega)]

/-- Concrete instance of the scan_line claim: cumulative counts
[0, 2, 5, 9] (m = 2) at scanner clock frequency 10 yield diffs 2 and 3
scaled to [[10], [15]]. -/
theorem scan_line_rates_witness :
    List.Chain' (· ≤ ·) [0, 2, 5, 9] ∧ (∀ x ∈ [0, 2, 5, 9], x < 2 ^ 32) ∧
    ((scan_line_data [0, 2, 5, 9] 10).length = 2 ∧
     ∀ i, i < 2 → (scan_line_data [0, 2, 5, 9] 10).getD i [] =
       [(([0, 2, 5, 9].getD (i + 1) 0 - [0, 2, 5, 9].getD i 0 : ℕ) : ℚ)
         * 10 / 2]) :=
  ⟨by norm_num [List.chain'_cons], by decide,
   scan_line_returns_consecutive_diff_rates [0, 2, 5, 9] 10 2 rfl
     (by norm_num [List.chain'_cons]) (by decide)⟩

/-- Claim C2: for a successful count_odmr call with sweep length L, the
returned array has length L and its entry at i equals (c[i+1] - c[i]) * f,
where c is the buffer of L+1 cumulative counts read from the ODMR counter
task and f is the ODMR clock frequency; there is no division by 2. -/
theorem count_odmr_returns_consecutive_diff_rates
    (c : List ℕ) (f : ℚ) (L : ℕ)
    (hlen : c.length = L + 1)
    (hmono : List.Chain' (· ≤ ·) c)
    (hbound : ∀ x ∈ c, x < 2 ^ 32) :
    (count_odmr_data c f).length = L ∧
    ∀ i, i < L → (count_odmr_data c f).getD i 0 =
      ((c.getD (i + 1) 0 - c.getD i 0 : ℕ) : ℚ) * f := by
  cases c with
  | nil => simp at hlen
  | cons p rest =>
    have hrl : rest.length = L := by simpa using hlen
    have hdl : count_odmr_data (p :: rest) f =
        (diffLoop p rest).map (fun d : ℕ => (d : ℚ) * f) := rfl
    have hdll : (diffLoop p rest).length = L := by
      rw [diffLoop_length, hrl]
    refine ⟨by rw [hdl]; simp [hdll], ?_⟩
    intro i hi
    have hir : i < rest.length := by rw [hrl]; exact hi
    have h1 : i < ((diffLoop p rest).map
        (fun d : ℕ => (d : ℚ) * f)).length := by
      simp [hdll]; exact hi
    have h2 : i < (diffLoop p rest).length := by rw [hdll]; exact hi
    rw [hdl, List.getD_eq_getElem _ _ h1, List.getElem_map,
        ← List.getD_eq_getElem _ 0 h2,
        diffLoop_getD _ _ _ hir hmono hbound]

/-- Concrete instance of the count_odmr claim: cumulative counts
[3, 7, 8, 20] (L = 3) at ODMR clock frequency 50 yield diffs 4, 1, 12
scaled to [200, 50, 600]. -/
theorem count_odmr_rates_witness :
    List.Chain' (· ≤ ·) [3, 7, 8, 20] ∧ (∀ x ∈ [3, 7, 8, 20], x < 2 ^ 32) ∧
    ((count_odmr_data [3, 7, 8, 20] 50).length = 3 ∧
     ∀ i, i < 3 → (count_odmr_data [3, 7, 8, 20] 50).getD i 0 =
       (([3, 7, 8, 20].getD (i + 1) 0 - [3, 7, 8, 20].getD i 0 : ℕ) : ℚ)
         * 50) :=
  ⟨by norm_num [List.chain'_cons], by decide,
   count_odmr_returns_consecutive_diff_rates [3, 7, 8, 20] 50 3 rfl
     (by norm_num [List.chain'_cons]) (by decide)⟩

/-- Claim C3: a successful get_counter(samples=s) call returns an array of
shape 1 x s whose entries are the s raw semi-period tick values read from
the counter task, each multiplied by the configured clock frequency; when
samples is None the configured _samples_number is used as s. -/
theorem get_counter_scales_raw_ticks
    (samples : Option ℕ) (samplesNumber : ℕ) (raw : List ℕ) (f : ℚ)
    (hread : raw.length = effectiveSamples samples samplesNumber) :
    (get_counter_data raw f).length = 1 ∧
    ((get_counter_data raw f).getD 0 []).length =
      effectiveSamples samples samplesNumber ∧
    (∀ i, i < effectiveSamples samples samplesNumber →
      ((get_counter_data raw f).getD 0 []).getD i 0 =
        (raw.getD i 0 : ℚ) * f) ∧
    (samples = none → effectiveSamples samples samplesNumber = samplesNumber) := by
  refine ⟨rfl, by simp [get_counter_data, hread], ?_, ?_⟩
  · intro i hi
    have hir : i < raw.length := by rw [hread]; exact hi
    have h1 : i < (raw.map (fun x : ℕ => (x : ℚ) * f)).length := by
      simpa using hir
    show (raw.map (fun x : ℕ => (x : ℚ) * f)).getD i 0 =
      (raw.getD i 0 : ℚ) * f
    rw [List.getD_eq_getElem _ _ h1, List.getElem_map,
        ← List.getD_eq_getElem _ 0 hir]
  · intro h
    rw [h]
    rfl

/-- Concrete instance of the get_counter claim: samples = None with
configured samples_number 3 and raw ticks [4, 0, 7] at clock frequency 100
yield one row [400, 0, 700]. -/
theorem get_counter_scales_witness :
    [4, 0, 7].length = effectiveSamples none 3 ∧
    ((get_counter_data [4, 0, 7] 100).length = 1 ∧
     ((get_counter_data [4, 0, 7] 100).getD 0 []).length =
       effectiveSamples none 3 ∧
     (∀ i, i < effectiveSamples none 3 →
       ((get_counter_data [4, 0, 7] 100).getD 0 []).getD i 0 =
         (([4, 0, 7] : List ℕ).getD i 0 : ℚ) * 100) ∧
     (none = (none : Option ℕ) → effectiveSamples none 3 = 3)) :=
  ⟨rfl, get_counter_scales_raw_ticks none 3 [4, 0, 7] 100 rfl⟩

theorem reachable_ind (P : NIState → Prop) (h0 : P initState)
    (hstep : ∀ (s : NIState) (a : Act), P s → P (applyOp s a)) :
    ∀ s, Reachable s → P s := by
  intro s h
  induction h with
  | refl => exact h0
  | tail _ hbc ih =>
    obtain ⟨a, rfl⟩ := hbc
    exact hstep _ a ih

theorem ntc_preserved : ∀ (s : NIState) (a : Act),
    ¬(s.counter = true ∧ s.scannerCounter = true) →
    ¬((applyOp s a).counter = true ∧ (applyOp s a).scannerCounter = true) := by
  decide

theorem ntmc_preserved : ∀ (s : NIState) (a : Act),
    ¬(s.clock = true ∧ s.scannerClock = true) →
    ¬((applyOp s a).clock = true ∧ (applyOp s a).scannerClock = true) := by
  decide

/-- Claim C4 counterexample: set_up_clock does not check the ODMR clock
handle.  From the initial state, a successful set_up_odmr_clock followed
by a successful set_up_clock yields a reachable state in which both the
counter clock handle and the ODMR clock handle are non-None, and
set_up_clock returned 0 (created its task) while another clock handle was
non-None. -/
theorem two_clock_handles_coexist :
    (set_up_odmr_clock initState true).ret = 0 ∧
    (set_up_odmr_clock initState true).st.odmrClock = true ∧
    (set_up_clock (set_up_odmr_clock initState true).st true).ret = 0 ∧
    (set_up_clock (set_up_odmr_clock initState true).st true).st.clock
      = true ∧
    (set_up_clock (set_up_odmr_clock initState true).st true).st.odmrClock
      = true ∧
    Reachable (set_up_clock (set_up_odmr_clock initState true).st true).st := by
  refine ⟨by decide, by decide, by decide, by decide, by decide, ?_⟩
  exact Relation.ReflTransGen.tail
    (Relation.ReflTransGen.single ⟨Act.odmrClockUp true, rfl⟩)
    ⟨Act.clockUp true, rfl⟩

/-- Claim C4 (amended): in every reachable state at most one of the
counter clock handle and the scanner clock handle is non-None, because
set_up_clock and set_up_scanner_clock each refuse when the other's handle
(or their own) is non-None; the ODMR clock handle can coexist with either
of them, since those two setters do not check it. -/
theorem counter_and_scanner_clock_exclusive :
    ∀ s : NIState, Reachable s →
      ¬(s.clock = true ∧ s.scannerClock = true) :=
  reachable_ind _ (by decide) ntmc_preserved

/-- Concrete instance of the amended clock exclusivity: the initial state
is reachable and has at most one of the two clock handles non-None. -/
theorem counter_and_scanner_clock_exclusive_witness :
    ¬(initState.clock = true ∧ initState.scannerClock = true) :=
  counter_and_scanner_clock_exclusive initState Relation.ReflTransGen.refl

/-- Claim C5: when the corresponding clock task handle is None and no
clock_channel argument is supplied, set_up_counter, set_up_scanner and
set_up_odmr each return -1 without creating any counter task and without
changing any task handle, for every driver outcome. -/
theorem setup_counters_require_clock :
    ∀ (s : NIState) (a b : Bool),
      (s.clock = false →
        (set_up_counter s false a b).ret = -1 ∧
        (set_up_counter s false a b).st = s) ∧
      (s.scannerClock = false →
        (set_up_scanner s false a).ret = -1 ∧
        (set_up_scanner s false a).st = s) ∧
      (s.odmrClock = false →
        (set_up_odmr s false a).ret = -1 ∧
        (set_up_odmr s false a).st = s) := by
  decide

/-- Concrete instance of the clock-first requirement, at the initial
state where no clock is running. -/
theorem setup_counters_require_clock_witness :
    ((set_up_counter initState false true true).ret = -1 ∧
     (set_up_counter initState false true true).st = initState) ∧
    ((set_up_scanner initState false true).ret = -1 ∧
     (set_up_scanner initState false true).st = initState) ∧
    ((set_up_odmr initState false true).ret = -1 ∧
     (set_up_odmr initState false true).st = initState) :=
  ⟨(setup_counters_require_clock initState true true).1 rfl,
   (setup_counters_require_clock initState true true).2.1 rfl,
   (setup_counters_require_clock initState true true).2.2 rfl⟩

/-- Claim C6 counterexample: when the driver stop call raises, close_clock
returns -1 but its `= None` assignment sits inside the try block, so the
clock task handle field is still non-None afterwards. -/
theorem close_clock_failure_keeps_handle :
    (close_clock ⟨true, false, false, false, false, false⟩ false).ret
      = -1 ∧
    (close_clock ⟨true, false, false, false, false, false⟩ false).st.clock
      = true := by
  decide

/-- Claim C6 (amended): only close_counter always leaves its handle None,
even when the driver calls fail and -1 is returned; for close_clock,
close_scanner_clock, close_odmr and close_odmr_clock the handle is None
after a successful close, but a driver failure returns -1 with the handle
unchanged (still non-None if it was), because their `= None` assignment
sits inside the try block. -/
theorem close_handle_bookkeeping :
    ∀ (s : NIState) (d : Bool),
      (close_counter s d).st.counter = false ∧
      (close_counter s false).ret = -1 ∧
      (close_clock s true).st.clock = false ∧
      (close_scanner_clock s true).st.scannerClock = false ∧
      (close_odmr s true).st.odmrCounter = false ∧
      (close_odmr_clock s true).st.odmrClock = false ∧
      ((close_clock s false).ret = -1 ∧ (close_clock s false).st = s) ∧
      ((close_scanner_clock s false).ret = -1 ∧
       (close_scanner_clock s false).st = s) ∧
      ((close_odmr s false).ret = -1 ∧ (close_odmr s false).st = s) ∧
      ((close_odmr_clock s false).ret = -1 ∧
       (close_odmr_clock s false).st = s) := by
  decide

/-- Claim C8 counterexample: with the counter clock handle non-None,
set_up_clock returns -1 from its bookkeeping guard alone, issuing no
driver call, even though every driver call would have succeeded. -/
theorem setup_refuses_without_driver_call :
    (set_up_clock ⟨true, false, false, false, false, false⟩ true).ret
      = -1 ∧
    (set_up_clock ⟨true, false, false, false, false, false⟩
      true).calledDriver = false := by
  decide

/-- Claim C8 (amended): for set_up_clock and set_up_scanner_clock, a -1
result arises exactly when a bookkeeping guard refuses (a relevant clock
task handle is already non-None, decided before any driver call) or a
driver call fails. -/
theorem setup_minus_one_guard_or_driver :
    ∀ (s : NIState) (d : Bool),
      ((set_up_clock s d).ret = -1 ↔
        (s.clock = true ∨ s.scannerClock = true ∨ d = false)) ∧
      ((set_up_scanner_clock s d).ret = -1 ↔
        (s.scannerClock = true ∨ s.clock = true ∨ d = false)) := by
  decide

/-- Claim C9: set_up_counter and set_up_scanner each return -1 and change
no task handle whenever either of _counter_daq_task and
_scanner_counter_daq_task is non-None; consequently in every reachable
state at most one of these two handles is non-None. -/
theorem counter_tasks_mutually_exclusive :
    (∀ (s : NIState) (a b c : Bool),
      s.counter = true ∨ s.scannerCounter = true →
        (set_up_counter s a b c).ret = -1 ∧
        (set_up_counter s a b c).st = s ∧
        (set_up_scanner s a b).ret = -1 ∧
        (set_up_scanner s a b).st = s) ∧
    (∀ s : NIState, Reachable s →
      ¬(s.counter = true ∧ s.scannerCounter = true)) :=
  ⟨by decide, reachable_ind _ (by decide) ntc_preserved⟩

/-- Concrete instance of counter mutual exclusion: with the slow counter
handle non-None, both setters refuse and change nothing, and the initial
state is reachable with at most one counter handle non-None. -/
theorem counter_tasks_mutually_exclusive_witness :
    ((set_up_counter ⟨false, true, false, false, false, false⟩ true true
        true).ret = -1 ∧
     (set_up_counter ⟨false, true, false, false, false, false⟩ true true
        true).st = ⟨false, true, false, false, false, false⟩ ∧
     (set_up_scanner ⟨false, true, false, false, false, false⟩ true
        true).ret = -1 ∧
     (set_up_scanner ⟨false, true, false, false, false, false⟩ true
        true).st = ⟨false, true, false, false, false, false⟩) ∧
    ¬(initState.counter = true ∧ initState.scannerCounter = true) :=
  ⟨counter_tasks_mutually_exclusive.1
     ⟨false, true, false, false, false, false⟩ true true true
     (Or.inl rfl),
   counter_tasks_mutually_exclusive.2 initState Relation.ReflTransGen.refl⟩

theorem parseDev_config_examples :
    parseDev "/Dev2/Ctr1" = some "Dev2" ∧
    parseDev "/Dev2/PFI8" = some "Dev2" ∧
    parseDev "Dev2/Ctr1" = none ∧
    parseDev "/Dev2" = none ∧
    parseDev "/_x/Ctr1" = none := by
  decide

/-- Claim C7: reset_hardware parses a device name out of every configured
non-None channel string, calls the driver reset exactly once per distinct
parsed device name (the call list has no duplicates and contains exactly
the parsed names), and returns 0 when every reset succeeds and -1 when
any reset call raises. -/
theorem reset_hardware_resets_each_device_once
    (chans : List (Option String)) (resetFails : String → Bool) :
    (reset_hardware chans resetFails).2.Nodup ∧
    (∀ d, d ∈ (reset_hardware chans resetFails).2 ↔
      ∃ c : String, some c ∈ chans ∧ parseDev c = some d) ∧
    ((reset_hardware chans resetFails).1 = 0 ∨
     (reset_hardware chans resetFails).1 = -1) ∧
    ((reset_hardware chans resetFails).1 = 0 ↔
      ∀ d ∈ (reset_hardware chans resetFails).2, resetFails d = false) := by
  refine ⟨List.nodup_dedup _, ?_, ?_, ?_⟩
  · intro d
    simp only [reset_hardware, List.mem_dedup, List.mem_filterMap, id_eq]
    constructor
    · rintro ⟨c, ⟨o, ho, rfl⟩, hp⟩
      exact ⟨c, ho, hp⟩
    · rintro ⟨c, hc, hp⟩
      exact ⟨c, ⟨some c, hc, rfl⟩, hp⟩
  · by_cases h : ((chans.filterMap id).filterMap parseDev).dedup.any resetFails
    · right; simp [reset_hardware, h]
    · left; simp [reset_hardware, h]
  · by_cases h : ((chans.filterMap id).filterMap parseDev).dedup.any resetFails
    · simp only [reset_hardware, h, if_true]
      rw [List.any_eq_true] at h
      obtain ⟨d, hd, hfd⟩ := h
      constructor
      · intro habs; exact absurd habs (by decide)
      · intro hall
        have := hall d hd
        rw [this] at hfd
        exact absurd hfd (by decide)
    · simp only [reset_hardware, h, if_false]
      constructor
      · intro _ d hd
        by_contra hne
        have : resetFails d = true := by
          cases hv : resetFails d
          · exact absurd hv hne
          · rfl
        exact h (List.any_eq_true.mpr ⟨d, hd, this⟩)
      · intro _; rfl

/-- Claim C10 counterexample: a dict that addresses the configured channel
"/Dev2/AO3" but also contains another channel name reaches the
`self.log.eror(...)` typo, whose AttributeError aborts the call: nothing
is returned, so neither the clamped store nor the returned-input-dict
behaviour holds there. -/
theorem set_voltage_extra_key_raises :
    ("/Dev2/AO3", (42 : ℚ)) ∈
      [("/Dev2/AO3", (42 : ℚ)), ("/Dev2/AO4", 1)] ∧
    set_voltage "/Dev2/AO3" (-10) 10 0
      [("/Dev2/AO3", 42), ("/Dev2/AO4", 1)] = none := by
  constructor
  · simp
  · decide

/-- Claim C10 (amended): when every entry of the input dict of
NI6229CardAnalogControl.set_voltage addresses the configured
analog-output channel (with distinct keys this is the singleton dict for
that channel), the call succeeds: the value written to the device and
stored as the current voltage is the requested value clamped into
[lo, hi] (so it lies inside that range), and the dict returned to the
caller is the unmodified input dict.  A dict with any other channel name
makes the call raise AttributeError at the `log.eror` typo and return
nothing. -/
theorem set_voltage_clamps_and_returns_input
    (ch : String) (lo hi cur v : ℚ) (dict : List (String × ℚ))
    (hrange : lo ≤ hi) (hnd : (dict.map Prod.fst).Nodup)
    (hall : ∀ e ∈ dict, e.1 = ch)
    (hmem : (ch, v) ∈ dict) :
    set_voltage ch lo hi cur dict =
      some (dict, clampSeq lo hi v, [clampSeq lo hi v]) ∧
    clampSeq lo hi v = max lo (min hi v) ∧
    lo ≤ clampSeq lo hi v ∧ clampSeq lo hi v ≤ hi := by
  have hd : dict = [(ch, v)] := by
    cases dict with
    | nil => simp at hmem
    | cons e t =>
      cases t with
      | nil =>
        rcases List.mem_cons.mp hmem with heq | h0
        · rw [← heq]
        · simp at h0
      | cons e2 t2 =>
        exfalso
        have h1 : e.1 = ch := hall e (by simp)
        have h2 : e2.1 = ch := hall e2 (by simp [List.mem_cons])
        have hk := hnd
        rw [List.map_cons, List.map_cons, h1, h2] at hk
        exact (List.nodup_cons.mp hk).1 (by simp)
  subst hd
  have hcl : clampSeq lo hi v = max lo (min hi v) := by
    simp only [clampSeq]
    rw [max_def, min_def]
    split_ifs <;> linarith
  refine ⟨?_, hcl, by rw [hcl]; exact le_max_left _ _,
    by rw [hcl]; exact max_le hrange (min_le_left _ _)⟩
  simp [set_voltage, svLoop]

/-- Concrete instance of the amended set_voltage claim: requesting 42 V on
channel "/Dev2/AO3" alone, with range [-10, 10], succeeds, writes and
stores the clamped 10 V and returns the unmodified input dict. -/
theorem set_voltage_clamps_witness :
    ((-10 : ℚ) ≤ 10) ∧
    (set_voltage "/Dev2/AO3" (-10) 10 0 [("/Dev2/AO3", 42)] =
       some ([("/Dev2/AO3", 42)], clampSeq (-10) 10 42,
         [clampSeq (-10) 10 42]) ∧
     clampSeq (-10) 10 42 = max (-10) (min 10 42) ∧
     (-10 : ℚ) ≤ clampSeq (-10) 10 42 ∧ clampSeq (-10) 10 42 ≤ 10) :=
  ⟨by norm_num,
   set_voltage_clamps_and_returns_input "/Dev2/AO3" (-10) 10 0 42
     [("/Dev2/AO3", 42)] (by norm_num) (by simp) (by simp) (by simp)⟩

end NI6229
